import Mathlib

/-!
Shallow embedding of the procedure-execution core of `mysql/fabric/executor.py`
(classes `Procedure`, `Job`, `ExecutorThread`, `ExecutorQueue`, `Executor`).

Python objects become Lean structures and mutation becomes explicit state
passing.  Calls made to the external collaborators (the persister, the
scheduler, the checkpoint store, the worker's queue and the condition
variable) are recorded as events in a trace, and their outcomes (normal
return or a raised exception) are supplied by a `Behaviour` record, so that
theorems can quantify over every behaviour of the action and of the
collaborators.  Python `assert` statements are modelled as preconditions of
the theorems (Python elides them in optimised runs); uuids are modelled as
naturals; wall-clock times (`time.time()`) as a per-job tick counter.
-/

/-- Python runtime values, as far as the executor inspects them: the executor
only ever distinguishes `None` from everything else (`job.result is not None`)
and stores the `True`/`False` sentinels, so a small universe suffices. -/
inductive PyValue where
  | none
  | bool (b : Bool)
  | int (n : Int)
  | str (s : String)
deriving DecidableEq, Repr

/-- Python exceptions (subclasses of `Exception`) raised by actions and by the
collaborators: `_errors.DatabaseError`, `_errors.ProgrammingError`,
`_errors.ExecutorError`, `_errors.NotCallableError`, or any other error. -/
inductive Exn where
  | databaseError (m : String)
  | programmingError (m : String)
  | executorError (m : String)
  | notCallableError (m : String)
  | otherError (m : String)
deriving DecidableEq, Repr

/-- Mirrors the dynamic test made by an `except _errors.DatabaseError` clause:
whether the exception is an instance of `DatabaseError`. -/
def Exn.isDatabaseError : Exn → Bool
  | .databaseError _ => true
  | _ => false

/-- The message carried by the exception. -/
def Exn.message : Exn → String
  | .databaseError m => m
  | .programmingError m => m
  | .executorError m => m
  | .notCallableError m => m
  | .otherError m => m

/-- Stand-in for `traceback.format_exc()` when the exception `e` is being
handled: some non-empty rendering of the stack trace. -/
def formatExc (e : Exn) : String := "Traceback: " ++ e.message

/-- `Job.EVENT_OUTCOME`: `ERROR, SUCCESS = range(1, 3)`. -/
inductive EventOutcome where
  | error
  | success
deriving DecidableEq, Repr

/-- `Job.EVENT_STATE`: `CREATED, PROCESSING, COMPLETE = range(3, 6)`. -/
inductive EventState where
  | created
  | processing
  | complete
deriving DecidableEq, Repr

/-- One entry of a job's status list, as built by `Job._add_status`. -/
structure Status where
  when : Nat
  state : EventState
  success : EventOutcome
  description : String
  diagnosis : String
deriving DecidableEq, Repr

/-- The data persisted by the `_checkpoint.Checkpoint` constructor called from
`Job.__init__`. -/
structure Checkpoint where
  proc_uuid : Nat
  lockable_objects : List String
  job_uuid : Nat
  action_fqn : String
  args : List PyValue
  kwargs : List (String × PyValue)
deriving DecidableEq, Repr

/-- The state of a `Procedure` object.  Jobs are referenced by uuid; the
scheduled-jobs Python set is modelled as a duplicate-free list.
`lockable_objects = []` models both `None` and an empty set. -/
structure Procedure where
  uuid : Nat
  complete : Bool
  result : PyValue
  scheduled_jobs : List Nat
  executed_jobs : List Nat
  status : List Status
  lockable_objects : List String
deriving DecidableEq, Repr

/-- Calls made to the collaborators, recorded in order of invocation (an
event is recorded when the call is made, whether or not it then raises). -/
inductive Event where
  | checkpointBegin (job_uuid : Nat)
  | persisterBegin
  | invokeAction (name : String)
  | persisterRollback
  | registerCheckpoint (job_uuids : List Nat) (recoverable : Bool)
  | checkpointFinish (job_uuid : Nat)
  | persisterCommit
  | queueSchedule (job_uuids : List Nat)
  | schedulerEnqueueProcedures (proc_uuids : List Nat)
  | logException (e : Exn)
  | notifyAll (proc_uuid : Nat)
  | checkpointRemove (job_uuid : Nat)
  | addExecutedJob (job_uuid : Nat)
deriving DecidableEq, Repr

/-- The state of a `Job` object.  Staged child jobs (`self.__jobs`) are
referenced by uuid; staged child procedures (`self.__procedures`) are whole
procedure states. -/
structure Job where
  uuid : Nat
  proc_uuid : Nat
  action_name : String
  action_fqn : String
  args : List PyValue
  kwargs : List (String × PyValue)
  status : List Status
  result : PyValue
  complete : Bool
  is_recoverable : Bool
  jobs : List Nat
  procedures : List Procedure
  checkpoint : Checkpoint
  clock : Nat
deriving DecidableEq, Repr

/-- `Procedure.__init__`: fresh procedure state. -/
def Procedure.fresh (uuid : Nat) (lockable_objects : List String) : Procedure :=
  { uuid := uuid
    complete := false
    result := PyValue.bool true
    scheduled_jobs := []
    executed_jobs := []
    status := []
    lockable_objects := lockable_objects }

/-- `Procedure.get_lockable_objects`: the default set when none was given. -/
def Procedure.get_lockable_objects (p : Procedure) : List String :=
  if p.lockable_objects = [] then ["lock"] else p.lockable_objects

/-- `Procedure.is_complete`. -/
def Procedure.is_complete (p : Procedure) : Bool := p.complete

/-- `Procedure.add_scheduled_job`.  The asserts (`not complete`, job unknown,
`job.procedure == self`) are modelled as preconditions of the theorems. -/
def Procedure.add_scheduled_job (p : Procedure) (job : Job) : Procedure :=
  { p with scheduled_jobs := p.scheduled_jobs ++ [job.uuid] }

/-- `Procedure.add_executed_job`: move the job from scheduled to executed,
fold a non-`None` job result into the aggregate, extend the status list, and
when the scheduled set becomes empty mark the procedure complete, signal all
waiters, and remove the job's checkpoint.  The returned events record the
`notify_all` and `Checkpoint.remove` calls.  The asserts are modelled as
preconditions of the theorems. -/
def Procedure.add_executed_job (p : Procedure) (job : Job) :
    Procedure × List Event :=
  let scheduled := p.scheduled_jobs.erase job.uuid
  let p' : Procedure :=
    { p with
      scheduled_jobs := scheduled
      executed_jobs := p.executed_jobs ++ [job.uuid]
      result := if job.result ≠ PyValue.none then job.result else p.result
      status := p.status ++ job.status }
  if scheduled = [] then
    ({ p' with complete := true },
     [Event.notifyAll p.uuid, Event.checkpointRemove job.uuid])
  else
    (p', [])

/-- `Procedure.wait` observed at each evaluation of the loop condition
`while not self.__complete`: given the successive reads of the completion
flag (the first read precedes any wait, each later read follows a wake-up of
the condition variable), return `some k` when the loop exits after `k` waits,
and `none` when the flag was never observed true (still blocked). -/
def Procedure.waitLoop : List Bool → Option Nat
  | [] => none
  | b :: rest => if b then some 0 else (Procedure.waitLoop rest).map (· + 1)

/-- The callable handed to `Job.__init__`: its identity (`__name__` and
`__module__`), whether `callable(action)` holds, and whether the checkpoint
store reports it recoverable (`Checkpoint.is_recoverable`).  Its runtime
behaviour when invoked is supplied separately by `Behaviour`. -/
structure PyAction where
  name : String
  module : String
  callable : Bool
  recoverable : Bool
deriving DecidableEq, Repr

/-- `Job._add_status`: append a status entry.  `diagnosis` carries the
exception being handled when the Python call passes `diagnosis=True` (there
`traceback.format_exc()` renders the current exception), and `none` when it
passes the default `False`. -/
def Job.add_status (j : Job) (success : EventOutcome) (state : EventState)
    (description : String) (diagnosis : Option Exn) : Job :=
  { j with
    status := j.status ++
      [{ when := j.clock
         state := state
         success := success
         description := description
         diagnosis := match diagnosis with
           | Option.none => ""
           | some e => formatExc e }]
    clock := j.clock + 1 }

/-- `Job.__init__`: reject a non-callable action, build the checkpoint
handle, record a `(Created, Success)` status and register the job with its
procedure (`add_scheduled_job`).  A non-recoverable action only causes a
warning log, which is not modelled.  Returns the job together with the
updated procedure. -/
def Job.create (procedure : Procedure) (action : PyAction)
    (description : String) (args : List PyValue)
    (kwargs : List (String × PyValue)) (uuid : Nat) :
    Except Exn (Job × Procedure) :=
  if action.callable = false then
    Except.error (Exn.notCallableError "Callable expected")
  else
    let fqn := action.module ++ "." ++ action.name
    let job : Job :=
      { uuid := uuid
        proc_uuid := procedure.uuid
        action_name := action.name
        action_fqn := fqn
        args := args
        kwargs := kwargs
        status := []
        result := PyValue.none
        complete := false
        is_recoverable := action.recoverable
        jobs := []
        procedures := []
        checkpoint :=
          { proc_uuid := procedure.uuid
            lockable_objects := procedure.get_lockable_objects
            job_uuid := uuid
            action_fqn := fqn
            args := args
            kwargs := kwargs }
        clock := 0 }
    let job := job.add_status EventOutcome.success EventState.created
      description Option.none
    Except.ok (job, procedure.add_scheduled_job job)

/-- The behaviour of the action and of the collaborators during one
`Job.execute`: for each call that the code can make, the exception it raises
(`none` means normal return), and for the action its return value or raised
exception.  `registerExn` applies to the first `_checkpoint.register` call
made in the `else` branch; a failure of any later register call is handled by
the very same `except` clause. -/
structure Behaviour where
  checkpointBeginExn : Option Exn
  persisterBeginExn : Option Exn
  actionResult : Except Exn PyValue
  rollbackExn : Option Exn
  registerExn : Option Exn
  checkpointFinishExn : Option Exn
  commitExn : Option Exn
deriving Repr

/-- Whether an optional raised exception respects the database-error contract
of the persister and of the checkpoint store (spec section 6: those
collaborators surface `Database` errors). -/
def exnDbOnly : Option Exn → Bool
  | Option.none => true
  | some e => e.isDatabaseError

/-- The persister and checkpoint-store calls whose exceptions are filtered by
`except _errors.DatabaseError` clauses in `Job.execute` raise only database
errors. -/
def Behaviour.dbContract (b : Behaviour) : Bool :=
  exnDbOnly b.rollbackExn && exnDbOnly b.registerExn &&
    exnDbOnly b.checkpointFinishExn && exnDbOnly b.commitExn

/-- Result of one `Job.execute`: the job and procedure states afterwards, the
trace of collaborator calls, and the exception escaping to the calling
worker, if any. -/
structure ExecOut where
  job : Job
  proc : Procedure
  trace : List Event
  raised : Option Exn
deriving DecidableEq, Repr

/-- Tail of the `except Exception` handler of `Job.execute`: set the result
to the `False` sentinel and append the `(Complete, Error)` status entry with
the captured stack trace. -/
def Job.finishFailure (j : Job) (tr : List Event) (error : Exn) :
    Job × List Event × Option Exn :=
  let j := { j with result := PyValue.bool false }
  (j.add_status EventOutcome.error EventState.complete
      ("Tried to execute action (" ++ j.action_name ++ ").") (some error),
   tr, Option.none)

/-- The `except Exception as error` handler of `Job.execute`: log the
exception, attempt `persister.rollback()` — a `DatabaseError` raised there is
logged and swallowed, any other exception propagates — then finish via
`Job.finishFailure`. -/
def Job.handleFailure (j : Job) (b : Behaviour) (tr : List Event)
    (error : Exn) : Job × List Event × Option Exn :=
  let tr := tr ++ [Event.logException error, Event.persisterRollback]
  match b.rollbackExn with
  | some re =>
      if re.isDatabaseError then
        Job.finishFailure j (tr ++ [Event.logException re]) error
      else
        (j, tr, some re)
  | Option.none => Job.finishFailure j tr error

/-- The `try` block inside the `else` branch of `Job.execute`: register the
staged child jobs with the checkpoint store, register each staged child
procedure's scheduled jobs, finish the checkpoint when recoverable, commit,
then enqueue the staged child jobs into the worker's queue and hand the
staged child procedures to the scheduler.  Returns the trace of however far
it got and the exception raised, if any. -/
def Job.elseTry (j : Job) (b : Behaviour) (tr : List Event) :
    List Event × Option Exn :=
  let tr := tr ++ [Event.registerCheckpoint j.jobs true]
  match b.registerExn with
  | some e => (tr, some e)
  | Option.none =>
    let tr := tr ++
      j.procedures.map (fun q => Event.registerCheckpoint q.scheduled_jobs true)
    let tr := tr ++
      (if j.is_recoverable then [Event.checkpointFinish j.uuid] else [])
    match (if j.is_recoverable then b.checkpointFinishExn else Option.none) with
    | some e => (tr, some e)
    | Option.none =>
      let tr := tr ++ [Event.persisterCommit]
      match b.commitExn with
      | some e => (tr, some e)
      | Option.none =>
        (tr ++ [Event.queueSchedule j.jobs,
                Event.schedulerEnqueueProcedures
                  (j.procedures.map Procedure.uuid)],
         Option.none)

/-- The `else` branch of `Job.execute`: run `Job.elseTry`; a `DatabaseError`
raised there is logged and swallowed, any other exception propagates; then
append the `(Complete, Success)` status entry. -/
def Job.handleSuccess (j : Job) (b : Behaviour) (tr : List Event) :
    Job × List Event × Option Exn :=
  match Job.elseTry j b tr with
  | (tr, some e) =>
      if e.isDatabaseError then
        ((j.add_status EventOutcome.success EventState.complete
            ("Executed action (" ++ j.action_name ++ ").") Option.none),
         tr ++ [Event.logException e], Option.none)
      else
        (j, tr, some e)
  | (tr, Option.none) =>
      ((j.add_status EventOutcome.success EventState.complete
          ("Executed action (" ++ j.action_name ++ ").") Option.none),
       tr, Option.none)

/-- `Job.execute`: append the `(Processing, Success)` status, begin the
checkpoint when recoverable, begin the persister transaction, invoke the
action; dispatch to the `except` handler on a raise and to the `else` branch
on normal return; in all cases finally mark the job complete and call
`procedure.add_executed_job(self)`. -/
def Job.execute (j : Job) (proc : Procedure) (b : Behaviour) : ExecOut :=
  let j := j.add_status EventOutcome.success EventState.processing
    ("Executing action (" ++ j.action_name ++ ").") Option.none
  let body : Job × List Event × Option Exn :=
    let tr := if j.is_recoverable then [Event.checkpointBegin j.uuid] else []
    match (if j.is_recoverable then b.checkpointBeginExn else Option.none) with
    | some e => Job.handleFailure j b tr e
    | Option.none =>
      let tr := tr ++ [Event.persisterBegin]
      match b.persisterBeginExn with
      | some e => Job.handleFailure j b tr e
      | Option.none =>
        let tr := tr ++ [Event.invokeAction j.action_name]
        match b.actionResult with
        | Except.error e => Job.handleFailure j b tr e
        | Except.ok v => Job.handleSuccess { j with result := v } b tr
  match body with
  | (j, tr, raised) =>
    let j := { j with complete := true }
    match proc.add_executed_job j with
    | (proc, evs) =>
      { job := j
        proc := proc
        trace := tr ++ [Event.addExecutedJob j.uuid] ++ evs
        raised := raised }

/-- History of a procedure: the mutations that the executor and the workers
perform on it (`add_scheduled_job` by `Job.__init__`, `add_executed_job` by
`Job.execute`). -/
inductive ProcOp where
  | sched (j : Job)
  | exec (j : Job)
deriving DecidableEq, Repr

/-- The assert preconditions of `add_scheduled_job` / `add_executed_job`:
procedure not complete, the job on the expected side of
`{scheduled, executed}`, and `job.procedure == self`. -/
def ProcOp.valid (p : Procedure) : ProcOp → Bool
  | .sched j =>
      !p.complete && decide (j.uuid ∉ p.scheduled_jobs) &&
        decide (j.uuid ∉ p.executed_jobs) && (j.proc_uuid == p.uuid)
  | .exec j =>
      !p.complete && decide (j.uuid ∈ p.scheduled_jobs) &&
        decide (j.uuid ∉ p.executed_jobs) && (j.proc_uuid == p.uuid)

/-- Apply one mutation to the procedure state. -/
def Procedure.applyOp (p : Procedure) : ProcOp → Procedure
  | .sched j => p.add_scheduled_job j
  | .exec j => (p.add_executed_job j).1

/-- Apply a history of mutations in order. -/
def Procedure.applyOps (p : Procedure) : List ProcOp → Procedure
  | [] => p
  | op :: rest => (p.applyOp op).applyOps rest

/-- Every mutation of the history meets its assert preconditions in the state
where it runs. -/
def validOps (p : Procedure) : List ProcOp → Bool
  | [] => true
  | op :: rest => op.valid p && validOps (p.applyOp op) rest

/-- One element of the `actions` list passed to `Executor.enqueue_procedures`
or `Executor.reschedule_procedure`:
a dictionary holding the action tuple and an optional job uuid. -/
structure ActionEntry where
  do_action : PyAction
  description : String
  args : List PyValue
  kwargs : List (String × PyValue)
  job_uuid : Option Nat
deriving Repr

/-- The executor facade's mutable state: the uuid-to-procedure map
(`self.__procedures`, a weak-value map whose weakness is irrelevant to the
claims and not modelled) and the list of worker threads
(`self.__executors`, identified by name). -/
structure ExecutorState where
  procedures : List (Nat × Procedure)
  executors : List String
deriving Repr

/-- `self.__procedures.get(u, None)`. -/
def ExecutorState.getProc (st : ExecutorState) (u : Nat) : Option Procedure :=
  (st.procedures.find? (fun kv => kv.1 = u)).map (fun kv => kv.2)

/-- Write back the state of an aliased procedure object under its uuid. -/
def ExecutorState.putProc (st : ExecutorState) (p : Procedure) :
    ExecutorState :=
  { st with
    procedures := st.procedures.map
      (fun kv => if kv.1 = p.uuid then (kv.1, p) else kv) }

/-- Result of a facade call: the returned procedure uuids or the raised
exception, the facade state afterwards, the fresh-uuid supply, the (possibly
updated) current job of the calling worker, and the calls made to the
scheduler and the checkpoint store.  When an exception is raised the state
reflects exactly the mutations made before the raise. -/
structure EnqueueOut where
  result : Except Exn (List Nat)
  state : ExecutorState
  fresh : Nat
  current_job : Option Job
  events : List Event
deriving Repr

/-- `Executor._create_job`: look the procedure up in the map (creating and
installing a fresh one when absent — with the given uuid when one was
supplied, with a generated uuid otherwise), then build the job via
`Job.__init__`, which registers it with the procedure.  `fresh` is the supply
of generated uuids (`uuid4()`), drawn in order. -/
def Executor.create_job (st : ExecutorState) (fresh : Nat) (a : ActionEntry)
    (lockable_objects : List String) (proc_uuid : Option Nat) :
    Except Exn Job × ExecutorState × Nat :=
  let found := match proc_uuid with
    | some u => st.getProc u
    | Option.none => Option.none
  let chosen : Procedure × ExecutorState × Nat :=
    match found with
    | some procedure => (procedure, st, fresh)
    | Option.none =>
      let pu := match proc_uuid with
        | some u => u
        | Option.none => fresh
      let fresh' := match proc_uuid with
        | some _ => fresh
        | Option.none => fresh + 1
      let procedure := Procedure.fresh pu lockable_objects
      (procedure, { st with procedures := st.procedures ++ [(pu, procedure)] },
       fresh')
  match chosen with
  | (procedure, st, fresh) =>
    let ju := match a.job_uuid with
      | some u => u
      | Option.none => fresh
    let fresh' := match a.job_uuid with
      | some _ => fresh
      | Option.none => fresh + 1
    match Job.create procedure a.do_action a.description a.args a.kwargs ju with
    | Except.error e => (Except.error e, st, fresh')
    | Except.ok (job, procedure') => (Except.ok job, st.putProc procedure', fresh')

/-- `Executor._create_jobs`: create one job per action, collecting the set of
distinct procedures (as uuids) and the list of jobs.  On a raise, the
mutations already made are kept, as in Python. -/
def Executor.create_jobs (st : ExecutorState) (fresh : Nat)
    (actions : List ActionEntry) (lockable_objects : List String)
    (proc_uuid : Option Nat) :
    Except Exn (List Nat × List Job) × ExecutorState × Nat :=
  match actions with
  | [] => (Except.ok ([], []), st, fresh)
  | a :: rest =>
    match Executor.create_job st fresh a lockable_objects proc_uuid with
    | (Except.error e, st', f') => (Except.error e, st', f')
    | (Except.ok job, st', f') =>
      match Executor.create_jobs st' f' rest lockable_objects proc_uuid with
      | (Except.error e, st'', f'') => (Except.error e, st'', f'')
      | (Except.ok (procs, jobs), st'', f'') =>
        (Except.ok
          ((if job.proc_uuid ∈ procs then procs else job.proc_uuid :: procs),
           job :: jobs),
         st'', f'')

/-- `Executor._do_enqueue_procedures`: dispatch on the caller context.
Outside any job, `within_procedure` is a programming error; otherwise the
jobs are created, registered with the checkpoint store as top level
(`register(jobs, False)`) and the procedures handed to the scheduler.
Inside a job, the created jobs are staged on the current job — onto its
child-job bucket when `within_procedure` (jobs created under the caller's
procedure), onto its child-procedure bucket otherwise. -/
def Executor.do_enqueue_procedures (st : ExecutorState) (fresh : Nat)
    (ctx : Option Job) (within_procedure : Bool) (actions : List ActionEntry)
    (lockable_objects : List String) : EnqueueOut :=
  match ctx with
  | Option.none =>
    if within_procedure then
      { result := Except.error
          (Exn.programmingError "One can only create a new job from a job.")
        state := st, fresh := fresh, current_job := Option.none, events := [] }
    else
      match Executor.create_jobs st fresh actions lockable_objects Option.none with
      | (Except.error e, st', f') =>
        { result := Except.error e, state := st', fresh := f'
          current_job := Option.none, events := [] }
      | (Except.ok (procs, jobs), st', f') =>
        { result := Except.ok procs, state := st', fresh := f'
          current_job := Option.none
          events := [Event.registerCheckpoint (jobs.map Job.uuid) false,
                     Event.schedulerEnqueueProcedures procs] }
  | some current_job =>
    if within_procedure then
      match Executor.create_jobs st fresh actions lockable_objects
          (some current_job.proc_uuid) with
      | (Except.error e, st', f') =>
        { result := Except.error e, state := st', fresh := f'
          current_job := some current_job, events := [] }
      | (Except.ok (procs, jobs), st', f') =>
        { result := Except.ok procs, state := st', fresh := f'
          current_job := some { current_job with
            jobs := current_job.jobs ++ jobs.map Job.uuid }
          events := [] }
    else
      match Executor.create_jobs st fresh actions lockable_objects Option.none with
      | (Except.error e, st', f') =>
        { result := Except.error e, state := st', fresh := f'
          current_job := some current_job, events := [] }
      | (Except.ok (procs, _jobs), st', f') =>
        { result := Except.ok procs, state := st', fresh := f'
          current_job := some { current_job with
            procedures := current_job.procedures ++
              procs.filterMap st'.getProc }
          events := [] }

/-- `Executor.enqueue_procedures`: an empty actions list returns immediately;
then `_assert_running` raises `ExecutorError` when no worker exists; then
dispatch. -/
def Executor.enqueue_procedures (st : ExecutorState) (fresh : Nat)
    (ctx : Option Job) (within_procedure : Bool) (actions : List ActionEntry)
    (lockable_objects : List String) : EnqueueOut :=
  if actions.length = 0 then
    { result := Except.ok [], state := st, fresh := fresh
      current_job := ctx, events := [] }
  else if st.executors = [] then
    { result := Except.error (Exn.executorError "Executor is not running.")
      state := st, fresh := fresh, current_job := ctx, events := [] }
  else
    Executor.do_enqueue_procedures st fresh ctx within_procedure actions
      lockable_objects

/-- `Executor.enqueue_procedure`: thin wrapper passing a one-element actions
list with no preset job uuid. -/
def Executor.enqueue_procedure (st : ExecutorState) (fresh : Nat)
    (ctx : Option Job) (within_procedure : Bool) (do_action : PyAction)
    (description : String) (lockable_objects : List String)
    (args : List PyValue) (kwargs : List (String × PyValue)) : EnqueueOut :=
  Executor.enqueue_procedures st fresh ctx within_procedure
    [{ do_action := do_action, description := description, args := args,
       kwargs := kwargs, job_uuid := Option.none }] lockable_objects

/-- `Executor._do_reschedule_procedure`: forbidden from inside a job;
otherwise create the jobs under the given procedure uuid and hand the
procedures to the scheduler (no checkpoint registration here). -/
def Executor.do_reschedule_procedure (st : ExecutorState) (fresh : Nat)
    (ctx : Option Job) (proc_uuid : Nat) (actions : List ActionEntry)
    (lockable_objects : List String) : EnqueueOut :=
  if ctx.isSome then
    { result := Except.error
        (Exn.programmingError "One cannot reschedule a procedure from a job.")
      state := st, fresh := fresh, current_job := ctx, events := [] }
  else
    match Executor.create_jobs st fresh actions lockable_objects
        (some proc_uuid) with
    | (Except.error e, st', f') =>
      { result := Except.error e, state := st', fresh := f'
        current_job := ctx, events := [] }
    | (Except.ok (procs, _jobs), st', f') =>
      { result := Except.ok procs, state := st', fresh := f'
        current_job := ctx
        events := [Event.schedulerEnqueueProcedures procs] }

/-- `Executor.reschedule_procedure`: an empty actions list returns
immediately; then `_assert_running`; then dispatch. -/
def Executor.reschedule_procedure (st : ExecutorState) (fresh : Nat)
    (ctx : Option Job) (proc_uuid : Nat) (actions : List ActionEntry)
    (lockable_objects : List String) : EnqueueOut :=
  if actions.length = 0 then
    { result := Except.ok [], state := st, fresh := fresh
      current_job := ctx, events := [] }
  else if st.executors = [] then
    { result := Except.error (Exn.executorError "Executor is not running.")
      state := st, fresh := fresh, current_job := ctx, events := [] }
  else
    Executor.do_reschedule_procedure st fresh ctx proc_uuid actions
      lockable_objects

/-- `Executor.wait_for_procedure`: raises `ProgrammingError` when called from
inside a job (`ExecutorThread.executor_object()` is set), without touching
the condition variable; otherwise delegates to `procedure.wait()`, whose
loop is modelled by `Procedure.waitLoop` over the successive reads of the
completion flag. -/
def Executor.wait_for_procedure (ctx : Option Job) (flagReads : List Bool) :
    Except Exn (Option Nat) :=
  if ctx.isSome then
    Except.error (Exn.programmingError
      "One cannot wait for the execution of a procedure from a job.")
  else
    Except.ok (Procedure.waitLoop flagReads)

/-- A concrete child procedure staged by `sampleJob`, used to instantiate the
theorems. -/
def sampleChildProc : Procedure :=
  { uuid := 2, complete := false, result := PyValue.bool true,
    scheduled_jobs := [21], executed_jobs := [], status := [],
    lockable_objects := ["lock"] }

/-- A concrete job used to instantiate the theorems: scheduled under
procedure 1, with one staged child job and one staged child procedure, and a
`None` result. -/
def sampleJob : Job :=
  { uuid := 7, proc_uuid := 1, action_name := "act", action_fqn := "mod.act",
    args := [], kwargs := [], status := [], result := PyValue.none,
    complete := false, is_recoverable := true, jobs := [20],
    procedures := [sampleChildProc],
    checkpoint :=
      { proc_uuid := 1, lockable_objects := ["lock"], job_uuid := 7,
        action_fqn := "mod.act", args := [], kwargs := [] },
    clock := 1 }

/-- The procedure owning `sampleJob`. -/
def sampleProc : Procedure :=
  { uuid := 1, complete := false, result := PyValue.bool true,
    scheduled_jobs := [7], executed_jobs := [], status := [],
    lockable_objects := ["lock"] }

/-- A behaviour where every collaborator call succeeds and the action
returns 42. -/
def sampleBehaviour : Behaviour :=
  { checkpointBeginExn := Option.none, persisterBeginExn := Option.none,
    actionResult := Except.ok (PyValue.int 42), rollbackExn := Option.none,
    registerExn := Option.none, checkpointFinishExn := Option.none,
    commitExn := Option.none }

/-- A behaviour where the action raises and the subsequent rollback raises a
database error. -/
def sampleFailBehaviour : Behaviour :=
  { checkpointBeginExn := Option.none, persisterBeginExn := Option.none,
    actionResult := Except.error (Exn.otherError "boom"),
    rollbackExn := some (Exn.databaseError "rollback failed"),
    registerExn := Option.none, checkpointFinishExn := Option.none,
    commitExn := Option.none }

/-- A behaviour where the action returns normally and only the commit raises
a database error. -/
def sampleCommitFailBehaviour : Behaviour :=
  { checkpointBeginExn := Option.none, persisterBeginExn := Option.none,
    actionResult := Except.ok (PyValue.int 42), rollbackExn := Option.none,
    registerExn := Option.none, checkpointFinishExn := Option.none,
    commitExn := some (Exn.databaseError "commit failed") }

/-- A concrete callable. -/
def sampleAction : PyAction :=
  { name := "act", module := "mod", callable := true, recoverable := true }

/-- A facade state with one running worker and no known procedure. -/
def sampleState : ExecutorState :=
  { procedures := [], executors := ["Executor-0"] }

/-- A concrete action entry. -/
def sampleEntry : ActionEntry :=
  { do_action := sampleAction, description := "sample", args := [],
    kwargs := [], job_uuid := Option.none }

/-- The job and owning procedure built by `Job.create` on the sample inputs
(used by witnesses). -/
def sampleCreated : Job × Procedure :=
  match Job.create sampleProc sampleAction "sample" [] [] 7 with
  | Except.ok jp => jp
  | Except.error _ => (sampleJob, sampleProc)

/-- A history over a fresh procedure, used to instantiate the theorems:
scheduling and then executing the sample job. -/
def sampleOps : List ProcOp := [ProcOp.sched sampleJob, ProcOp.exec sampleJob]

/-- The invariant tying the completion flag to the two job collections:
complete exactly when at least one job has executed and no job is still
scheduled. -/
def completionInv (p : Procedure) : Prop :=
  p.complete = true ↔ (p.executed_jobs ≠ [] ∧ p.scheduled_jobs = [])

@[simp] theorem Job.add_status_uuid (j : Job) (s : EventOutcome)
    (st : EventState) (d : String) (dg : Option Exn) :
    (j.add_status s st d dg).uuid = j.uuid := rfl

@[simp] theorem Job.add_status_proc_uuid (j : Job) (s : EventOutcome)
    (st : EventState) (d : String) (dg : Option Exn) :
    (j.add_status s st d dg).proc_uuid = j.proc_uuid := rfl

@[simp] theorem Job.add_status_action_name (j : Job) (s : EventOutcome)
    (st : EventState) (d : String) (dg : Option Exn) :
    (j.add_status s st d dg).action_name = j.action_name := rfl

@[simp] theorem Job.add_status_is_recoverable (j : Job) (s : EventOutcome)
    (st : EventState) (d : String) (dg : Option Exn) :
    (j.add_status s st d dg).is_recoverable = j.is_recoverable := rfl

@[simp] theorem Job.add_status_jobs (j : Job) (s : EventOutcome)
    (st : EventState) (d : String) (dg : Option Exn) :
    (j.add_status s st d dg).jobs = j.jobs := rfl

@[simp] theorem Job.add_status_procedures (j : Job) (s : EventOutcome)
    (st : EventState) (d : String) (dg : Option Exn) :
    (j.add_status s st d dg).procedures = j.procedures := rfl

@[simp] theorem Job.add_status_result (j : Job) (s : EventOutcome)
    (st : EventState) (d : String) (dg : Option Exn) :
    (j.add_status s st d dg).result = j.result := rfl

@[simp] theorem Job.add_status_complete (j : Job) (s : EventOutcome)
    (st : EventState) (d : String) (dg : Option Exn) :
    (j.add_status s st d dg).complete = j.complete := rfl

@[simp] theorem Job.add_status_status (j : Job) (s : EventOutcome)
    (st : EventState) (d : String) (dg : Option Exn) :
    (j.add_status s st d dg).status = j.status ++
      [{ when := j.clock, state := st, success := s, description := d,
         diagnosis := match dg with
           | Option.none => ""
           | some e => formatExc e }] := rfl

@[simp] theorem Procedure.add_executed_job_uuid (p : Procedure) (j : Job) :
    (p.add_executed_job j).1.uuid = p.uuid := by
  simp only [Procedure.add_executed_job]
  split <;> rfl

@[simp] theorem Procedure.add_executed_job_executed (p : Procedure) (j : Job) :
    (p.add_executed_job j).1.executed_jobs = p.executed_jobs ++ [j.uuid] := by
  simp only [Procedure.add_executed_job]
  split <;> rfl

@[simp] theorem Procedure.add_executed_job_scheduled (p : Procedure) (j : Job) :
    (p.add_executed_job j).1.scheduled_jobs =
      p.scheduled_jobs.erase j.uuid := by
  simp only [Procedure.add_executed_job]
  split <;> rfl

@[simp] theorem Procedure.add_executed_job_result (p : Procedure) (j : Job) :
    (p.add_executed_job j).1.result =
      if j.result ≠ PyValue.none then j.result else p.result := by
  simp only [Procedure.add_executed_job]
  split <;> rfl

@[simp] theorem Procedure.add_executed_job_status (p : Procedure) (j : Job) :
    (p.add_executed_job j).1.status = p.status ++ j.status := by
  simp only [Procedure.add_executed_job]
  split <;> rfl

@[simp] theorem Procedure.add_executed_job_complete (p : Procedure) (j : Job) :
    (p.add_executed_job j).1.complete =
      (if p.scheduled_jobs.erase j.uuid = [] then true else p.complete) := by
  simp only [Procedure.add_executed_job]
  split <;> simp_all

@[simp] theorem Procedure.add_executed_job_events (p : Procedure) (j : Job) :
    (p.add_executed_job j).2 =
      (if p.scheduled_jobs.erase j.uuid = [] then
        [Event.notifyAll p.uuid, Event.checkpointRemove j.uuid]
      else []) := by
  simp only [Procedure.add_executed_job]
  split <;> simp_all

theorem Job.handleFailure_eq {j : Job} {b : Behaviour} {tr : List Event}
    {error : Exn} (h : exnDbOnly b.rollbackExn = true) :
    Job.handleFailure j b tr error =
      ({ j with result := PyValue.bool false }.add_status EventOutcome.error
          EventState.complete
          ("Tried to execute action (" ++ j.action_name ++ ").") (some error),
       tr ++ [Event.logException error, Event.persisterRollback] ++
         (match b.rollbackExn with
          | some re => [Event.logException re]
          | Option.none => []),
       Option.none) := by
  cases hrb : b.rollbackExn with
  | none => simp [Job.handleFailure, Job.finishFailure, hrb]
  | some re =>
    have hdb : re.isDatabaseError = true := by simpa [exnDbOnly, hrb] using h
    simp [Job.handleFailure, Job.finishFailure, hrb, hdb]

theorem Job.handleSuccess_raised {j : Job} {b : Behaviour} {tr : List Event}
    (h2 : exnDbOnly b.registerExn = true)
    (h3 : exnDbOnly b.checkpointFinishExn = true)
    (h4 : exnDbOnly b.commitExn = true) :
    (Job.handleSuccess j b tr).2.2 = Option.none := by
  cases hrg : b.registerExn with
  | some e =>
    have he : e.isDatabaseError = true := by simpa [exnDbOnly, hrg] using h2
    simp [Job.handleSuccess, Job.elseTry, hrg, he]
  | none =>
    cases hrec : j.is_recoverable with
    | true =>
      cases hcf : b.checkpointFinishExn with
      | some e =>
        have he : e.isDatabaseError = true := by simpa [exnDbOnly, hcf] using h3
        simp [Job.handleSuccess, Job.elseTry, hrg, hrec, hcf, he]
      | none =>
        cases hcm : b.commitExn with
        | some e =>
          have he : e.isDatabaseError = true := by
            simpa [exnDbOnly, hcm] using h4
          simp [Job.handleSuccess, Job.elseTry, hrg, hrec, hcf, hcm, he]
        | none => simp [Job.handleSuccess, Job.elseTry, hrg, hrec, hcf, hcm]
    | false =>
      cases hcm : b.commitExn with
      | some e =>
        have he : e.isDatabaseError = true := by simpa [exnDbOnly, hcm] using h4
        simp [Job.handleSuccess, Job.elseTry, hrg, hrec, hcm, he]
      | none => simp [Job.handleSuccess, Job.elseTry, hrg, hrec, hcm]

theorem Job.handleSuccess_job {j : Job} {b : Behaviour} {tr : List Event}
    (h2 : exnDbOnly b.registerExn = true)
    (h3 : exnDbOnly b.checkpointFinishExn = true)
    (h4 : exnDbOnly b.commitExn = true) :
    (Job.handleSuccess j b tr).1 =
      j.add_status EventOutcome.success EventState.complete
        ("Executed action (" ++ j.action_name ++ ").") Option.none := by
  cases hrg : b.registerExn with
  | some e =>
    have he : e.isDatabaseError = true := by simpa [exnDbOnly, hrg] using h2
    simp [Job.handleSuccess, Job.elseTry, hrg, he]
  | none =>
    cases hrec : j.is_recoverable with
    | true =>
      cases hcf : b.checkpointFinishExn with
      | some e =>
        have he : e.isDatabaseError = true := by simpa [exnDbOnly, hcf] using h3
        simp [Job.handleSuccess, Job.elseTry, hrg, hrec, hcf, he]
      | none =>
        cases hcm : b.commitExn with
        | some e =>
          have he : e.isDatabaseError = true := by
            simpa [exnDbOnly, hcm] using h4
          simp [Job.handleSuccess, Job.elseTry, hrg, hrec, hcf, hcm, he]
        | none => simp [Job.handleSuccess, Job.elseTry, hrg, hrec, hcf, hcm]
    | false =>
      cases hcm : b.commitExn with
      | some e =>
        have he : e.isDatabaseError = true := by simpa [exnDbOnly, hcm] using h4
        simp [Job.handleSuccess, Job.elseTry, hrg, hrec, hcm, he]
      | none => simp [Job.handleSuccess, Job.elseTry, hrg, hrec, hcm]

theorem Job.execute_core (j : Job) (proc : Procedure) (b : Behaviour)
    (h1 : exnDbOnly b.rollbackExn = true)
    (h2 : exnDbOnly b.registerExn = true)
    (h3 : exnDbOnly b.checkpointFinishExn = true)
    (h4 : exnDbOnly b.commitExn = true) :
    (j.execute proc b).raised = Option.none ∧
    (j.execute proc b).job.complete = true ∧
    ((j.execute proc b).job.status.map Status.state) =
      (j.status.map Status.state) ++
        [EventState.processing, EventState.complete] ∧
    Event.addExecutedJob j.uuid ∈ (j.execute proc b).trace ∧
    (j.execute proc b).proc.executed_jobs = proc.executed_jobs ++ [j.uuid] := by
  cases hrec : j.is_recoverable with
  | true =>
    cases hcb : b.checkpointBeginExn with
    | some e =>
      simp [Job.execute, hrec, hcb, Job.handleFailure_eq h1]
    | none =>
      cases hpb : b.persisterBeginExn with
      | some e =>
        simp [Job.execute, hrec, hcb, hpb, Job.handleFailure_eq h1]
      | none =>
        cases har : b.actionResult with
        | error e =>
          simp [Job.execute, hrec, hcb, hpb, har, Job.handleFailure_eq h1]
        | ok v =>
          simp [Job.execute, hrec, hcb, hpb, har,
            Job.handleSuccess_raised h2 h3 h4, Job.handleSuccess_job h2 h3 h4]
  | false =>
    cases hpb : b.persisterBeginExn with
    | some e =>
      simp [Job.execute, hrec, hpb, Job.handleFailure_eq h1]
    | none =>
      cases har : b.actionResult with
      | error e =>
        simp [Job.execute, hrec, hpb, har, Job.handleFailure_eq h1]
      | ok v =>
        simp [Job.execute, hrec, hpb, har,
          Job.handleSuccess_raised h2 h3 h4, Job.handleSuccess_job h2 h3 h4]

theorem formatExc_ne_empty (e : Exn) : formatExc e ≠ "" := by
  intro h
  have h2 := congrArg String.length h
  simp [formatExc, String.length_append] at h2
  exact absurd h2.1 (by decide)

/-- C4: for every job and every behaviour of its action and of the persister
and checkpoint store within their database-error contract (spec sections 6
and 7: those collaborators surface `Database` errors), `Job.execute` lets no
exception escape to the calling worker, the job's final status entry has
state `Complete`, the completion flag ends set, and
`procedure.add_executed_job(self)` is called in the `finally` step (the job
lands on the procedure's executed list). -/
theorem c4_execute_never_raises (j : Job) (proc : Procedure) (b : Behaviour)
    (hb : Behaviour.dbContract b = true) :
    (j.execute proc b).raised = Option.none ∧
    (j.execute proc b).job.complete = true ∧
    ((j.execute proc b).job.status.map Status.state).getLast? =
      some EventState.complete ∧
    Event.addExecutedJob j.uuid ∈ (j.execute proc b).trace ∧
    (j.execute proc b).proc.executed_jobs = proc.executed_jobs ++ [j.uuid] := by
  simp only [Behaviour.dbContract, Bool.and_eq_true] at hb
  obtain ⟨⟨⟨h1, h2⟩, h3⟩, h4⟩ := hb
  obtain ⟨c1, c2, c3, c4, c5⟩ := Job.execute_core j proc b h1 h2 h3 h4
  refine ⟨c1, c2, ?_, c4, c5⟩
  rw [c3, show (j.status.map Status.state) ++
      [EventState.processing, EventState.complete] =
      (j.status.map Status.state) ++
        EventState.processing :: [EventState.complete] from rfl,
    List.getLast?_append_cons]
  rfl

theorem c4_witness :
    (sampleJob.execute sampleProc sampleFailBehaviour).raised =
      Option.none ∧
    (sampleJob.execute sampleProc sampleFailBehaviour).proc.executed_jobs =
      [7] := by
  have h := c4_execute_never_raises sampleJob sampleProc sampleFailBehaviour
    (by decide)
  exact ⟨h.1, by simpa [sampleProc] using h.2.2.2.2⟩

/-- C1: when the action returns normally and `persister.commit()` raises a
database error, `Job.execute` logs the error and does not propagate it, the
final status entry is still `(Complete, Success)`, and neither the staged
child jobs nor the staged child procedures are handed to the queue or the
scheduler. -/
theorem c1_commit_failure_not_reclassified (j : Job) (proc : Procedure)
    (b : Behaviour) (v : PyValue) (e : Exn)
    (hcb : b.checkpointBeginExn = Option.none)
    (hpb : b.persisterBeginExn = Option.none)
    (ha : b.actionResult = Except.ok v)
    (hrg : b.registerExn = Option.none)
    (hcf : b.checkpointFinishExn = Option.none)
    (hcm : b.commitExn = some e)
    (hdb : e.isDatabaseError = true) :
    (j.execute proc b).raised = Option.none ∧
    Event.logException e ∈ (j.execute proc b).trace ∧
    ((j.execute proc b).job.status.map
        (fun s => (s.state, s.success))).getLast? =
      some (EventState.complete, EventOutcome.success) ∧
    (∀ js, Event.queueSchedule js ∉ (j.execute proc b).trace) ∧
    (∀ ps, Event.schedulerEnqueueProcedures ps ∉ (j.execute proc b).trace) := by
  cases hrec : j.is_recoverable <;>
  by_cases hsch : proc.scheduled_jobs.erase j.uuid = [] <;>
  simp [Job.execute, Job.handleSuccess, Job.elseTry, hrec, hcb, hpb, ha,
    hrg, hcf, hcm, hdb, hsch, List.getLast?_append_cons]

theorem c1_witness :
    (sampleJob.execute sampleProc sampleCommitFailBehaviour).raised =
      Option.none ∧
    Event.logException (Exn.databaseError "commit failed") ∈
      (sampleJob.execute sampleProc sampleCommitFailBehaviour).trace := by
  have h := c1_commit_failure_not_reclassified sampleJob sampleProc
    sampleCommitFailBehaviour (PyValue.int 42)
    (Exn.databaseError "commit failed") rfl rfl rfl rfl rfl rfl rfl
  exact ⟨h.1, h.2.1⟩

/-- C2: when the action raises, `Job.execute` attempts
`persister.rollback()` (a database error raised there is logged, not
propagated), sets the result to the `False` sentinel, appends a
`(Complete, Error)` status entry whose diagnosis is the captured non-empty
stack trace, and neither enqueues nor registers any staged child. -/
theorem c2_action_raise_rollback (j : Job) (proc : Procedure) (b : Behaviour)
    (e : Exn)
    (hcb : b.checkpointBeginExn = Option.none)
    (hpb : b.persisterBeginExn = Option.none)
    (ha : b.actionResult = Except.error e)
    (hrb : exnDbOnly b.rollbackExn = true) :
    (j.execute proc b).raised = Option.none ∧
    Event.persisterRollback ∈ (j.execute proc b).trace ∧
    (∀ re, b.rollbackExn = some re →
      Event.logException re ∈ (j.execute proc b).trace) ∧
    (j.execute proc b).job.result = PyValue.bool false ∧
    ((j.execute proc b).job.status.map
        (fun s => (s.state, s.success))).getLast? =
      some (EventState.complete, EventOutcome.error) ∧
    ((j.execute proc b).job.status.map Status.diagnosis).getLast? =
      some (formatExc e) ∧
    formatExc e ≠ "" ∧
    (∀ js r, Event.registerCheckpoint js r ∉ (j.execute proc b).trace) ∧
    (∀ js, Event.queueSchedule js ∉ (j.execute proc b).trace) ∧
    (∀ ps, Event.schedulerEnqueueProcedures ps ∉ (j.execute proc b).trace) := by
  have hne := formatExc_ne_empty e
  cases hrbv : b.rollbackExn with
  | none =>
    cases hrec : j.is_recoverable <;>
    by_cases hsch : proc.scheduled_jobs.erase j.uuid = [] <;>
    simp [Job.execute, Job.handleFailure, Job.finishFailure, hrec, hcb, hpb,
      ha, hrbv, hsch, List.getLast?_append_cons, hne]
  | some re =>
    have hdb : re.isDatabaseError = true := by simpa [exnDbOnly, hrbv] using hrb
    cases hrec : j.is_recoverable <;>
    by_cases hsch : proc.scheduled_jobs.erase j.uuid = [] <;>
    simp [Job.execute, Job.handleFailure, Job.finishFailure, hrec, hcb, hpb,
      ha, hrbv, hdb, hsch, List.getLast?_append_cons, hne]

theorem c2_witness :
    (sampleJob.execute sampleProc sampleFailBehaviour).job.result =
      PyValue.bool false ∧
    Event.persisterRollback ∈
      (sampleJob.execute sampleProc sampleFailBehaviour).trace := by
  have h := c2_action_raise_rollback sampleJob sampleProc sampleFailBehaviour
    (Exn.otherError "boom") rfl rfl rfl rfl
  exact ⟨h.2.2.2.1, h.2.1⟩

/-- C3: when the action returns normally and every collaborator call
succeeds, the trace of `Job.execute` is exactly: checkpoint begin (when
recoverable), persister begin, the action, registration of the staged child
jobs and of each staged child procedure's scheduled jobs with the checkpoint
store, checkpoint finish (when recoverable), the commit, then the enqueue of
the staged child jobs into the worker's queue and the hand-over of the
staged child procedures to the scheduler, then the `finally` bookkeeping.
In particular children are registered before the commit and enqueued after
it. -/
theorem c3_success_trace_order (j : Job) (proc : Procedure) (b : Behaviour)
    (v : PyValue)
    (hcb : b.checkpointBeginExn = Option.none)
    (hpb : b.persisterBeginExn = Option.none)
    (ha : b.actionResult = Except.ok v)
    (hrg : b.registerExn = Option.none)
    (hcf : b.checkpointFinishExn = Option.none)
    (hcm : b.commitExn = Option.none) :
    (j.execute proc b).trace =
      (if j.is_recoverable then [Event.checkpointBegin j.uuid] else []) ++
      [Event.persisterBegin, Event.invokeAction j.action_name,
       Event.registerCheckpoint j.jobs true] ++
      j.procedures.map
        (fun q => Event.registerCheckpoint q.scheduled_jobs true) ++
      (if j.is_recoverable then [Event.checkpointFinish j.uuid] else []) ++
      [Event.persisterCommit, Event.queueSchedule j.jobs,
       Event.schedulerEnqueueProcedures (j.procedures.map Procedure.uuid),
       Event.addExecutedJob j.uuid] ++
      (if proc.scheduled_jobs.erase j.uuid = [] then
        [Event.notifyAll proc.uuid, Event.checkpointRemove j.uuid]
      else []) ∧
    (j.execute proc b).raised = Option.none := by
  cases hrec : j.is_recoverable <;>
  by_cases hsch : proc.scheduled_jobs.erase j.uuid = [] <;>
  simp [Job.execute, Job.handleSuccess, Job.elseTry, hrec, hcb, hpb, ha,
    hrg, hcf, hcm, hsch]

theorem c3_witness :
    (sampleJob.execute sampleProc sampleBehaviour).trace =
      [Event.checkpointBegin 7, Event.persisterBegin,
       Event.invokeAction "act", Event.registerCheckpoint [20] true,
       Event.registerCheckpoint [21] true, Event.checkpointFinish 7,
       Event.persisterCommit, Event.queueSchedule [20],
       Event.schedulerEnqueueProcedures [2], Event.addExecutedJob 7,
       Event.notifyAll 1, Event.checkpointRemove 7] := by
  rw [(c3_success_trace_order sampleJob sampleProc sampleBehaviour
    (PyValue.int 42) rfl rfl rfl rfl rfl rfl).1]
  decide

/-- C6: a job that is constructed (one `(Created, Success)` entry) and then
executed once under the collaborators' database-error contract has exactly
the status states Created, Processing, Complete, in that order. -/
theorem c6_status_lifecycle (procedure : Procedure) (action : PyAction)
    (description : String) (args : List PyValue)
    (kwargs : List (String × PyValue)) (uuid : Nat) (j : Job)
    (pr : Procedure) (proc : Procedure) (b : Behaviour)
    (hc : Job.create procedure action description args kwargs uuid =
      Except.ok (j, pr))
    (hb : Behaviour.dbContract b = true) :
    ((j.execute proc b).job.status.map Status.state) =
      [EventState.created, EventState.processing, EventState.complete] := by
  simp only [Behaviour.dbContract, Bool.and_eq_true] at hb
  obtain ⟨⟨⟨h1, h2⟩, h3⟩, h4⟩ := hb
  have hmap := (Job.execute_core j proc b h1 h2 h3 h4).2.2.1
  cases hcall : action.callable with
  | false => simp [Job.create, hcall] at hc
  | true =>
    simp [Job.create, hcall] at hc
    obtain ⟨hj, hpr⟩ := hc
    subst hj
    rw [hmap]
    simp

theorem c6_witness :
    ((sampleCreated.1.execute sampleProc sampleBehaviour).job.status.map
        Status.state) =
      [EventState.created, EventState.processing, EventState.complete] :=
  c6_status_lifecycle sampleProc sampleAction "sample" [] [] 7
    sampleCreated.1 sampleCreated.2 sampleProc sampleBehaviour rfl (by decide)

theorem applyOp_completionInv (p : Procedure) (op : ProcOp)
    (hv : op.valid p = true) : completionInv (p.applyOp op) := by
  cases op with
  | sched j =>
    simp only [ProcOp.valid, Bool.and_eq_true, Bool.not_eq_true'] at hv
    obtain ⟨⟨⟨hc, _⟩, _⟩, _⟩ := hv
    simp [completionInv, Procedure.applyOp, Procedure.add_scheduled_job, hc]
  | exec j =>
    simp only [ProcOp.valid, Bool.and_eq_true, Bool.not_eq_true'] at hv
    obtain ⟨⟨⟨hc, _⟩, _⟩, _⟩ := hv
    by_cases hsch : p.scheduled_jobs.erase j.uuid = [] <;>
    simp [completionInv, Procedure.applyOp, hsch, hc]

theorem applyOps_completionInv (ops : List ProcOp) :
    ∀ p : Procedure, validOps p ops = true → completionInv p →
      completionInv (p.applyOps ops) := by
  induction ops with
  | nil =>
    intro p _ hp
    simpa [Procedure.applyOps] using hp
  | cons op rest ih =>
    intro p hv _
    simp only [validOps, Bool.and_eq_true] at hv
    simp only [Procedure.applyOps]
    exact ih _ hv.2 (applyOp_completionInv p op hv.1)

theorem applyOp_complete_mono (p : Procedure) (op : ProcOp)
    (h : p.is_complete = true) : (p.applyOp op).is_complete = true := by
  cases op with
  | sched j =>
    simpa [Procedure.is_complete, Procedure.applyOp,
      Procedure.add_scheduled_job] using h
  | exec j =>
    simp only [Procedure.is_complete] at h
    by_cases hsch : p.scheduled_jobs.erase j.uuid = [] <;>
    simp [Procedure.is_complete, Procedure.applyOp, hsch, h]

theorem add_executed_job_notify (p : Procedure) (j : Job)
    (h : p.is_complete = false) :
    (Event.notifyAll p.uuid ∈ (p.add_executed_job j).2 ↔
      (p.add_executed_job j).1.is_complete = true) := by
  simp only [Procedure.is_complete] at h
  by_cases hsch : p.scheduled_jobs.erase j.uuid = [] <;>
  simp [Procedure.is_complete, hsch, h]

/-- C5: over any history of schedule/execute mutations meeting the asserts,
`is_complete()` holds exactly when at least one job has executed and the
scheduled set is empty; the flag never flips back under any mutation; and
`add_executed_job` signals all waiters exactly when it makes the flag become
true. -/
theorem c5_completion_flag (u : Nat) (lo : List String) (ops : List ProcOp)
    (hv : validOps (Procedure.fresh u lo) ops = true) :
    (((Procedure.fresh u lo).applyOps ops).is_complete = true ↔
      (((Procedure.fresh u lo).applyOps ops).executed_jobs ≠ [] ∧
        ((Procedure.fresh u lo).applyOps ops).scheduled_jobs = [])) ∧
    (∀ (p : Procedure) (op : ProcOp), p.is_complete = true →
      (p.applyOp op).is_complete = true) ∧
    (∀ (p : Procedure) (j : Job), p.is_complete = false →
      (Event.notifyAll p.uuid ∈ (p.add_executed_job j).2 ↔
        (p.add_executed_job j).1.is_complete = true)) := by
  refine ⟨?_, fun p op h => applyOp_complete_mono p op h,
    fun p j h => add_executed_job_notify p j h⟩
  have hinv := applyOps_completionInv ops (Procedure.fresh u lo) hv
    (by simp [completionInv, Procedure.fresh])
  simpa [completionInv, Procedure.is_complete] using hinv

theorem c5_witness :
    ((Procedure.fresh 1 ["lock"]).applyOps sampleOps).is_complete = true ↔
      (((Procedure.fresh 1 ["lock"]).applyOps sampleOps).executed_jobs ≠ [] ∧
        ((Procedure.fresh 1 ["lock"]).applyOps sampleOps).scheduled_jobs =
          []) :=
  (c5_completion_flag 1 ["lock"] sampleOps (by decide)).1

theorem applyOps_result_true (ops : List ProcOp) :
    ∀ p : Procedure, p.result = PyValue.bool true →
      (∀ j : Job, ProcOp.exec j ∈ ops → j.result = PyValue.none) →
      (p.applyOps ops).result = PyValue.bool true := by
  induction ops with
  | nil =>
    intro p hp _
    simpa [Procedure.applyOps] using hp
  | cons op rest ih =>
    intro p hp hnull
    simp only [Procedure.applyOps]
    refine ih _ ?_ (fun j hj => hnull j (by simp [hj]))
    cases op with
    | sched j =>
      simpa [Procedure.applyOp, Procedure.add_scheduled_job] using hp
    | exec j =>
      have hj : j.result = PyValue.none := hnull j (by simp)
      by_cases hsch : p.scheduled_jobs.erase j.uuid = [] <;>
      simp [Procedure.applyOp, hsch, hj, hp]

/-- C9: a procedure whose executed jobs all carried a `None` result reads
back the constructor's initial aggregate `True` as its result, because
`add_executed_job` only overwrites the aggregate with non-`None` job
results. -/
theorem c9_null_results_aggregate (u : Nat) (lo : List String)
    (ops : List ProcOp)
    (hv : validOps (Procedure.fresh u lo) ops = true)
    (hnull : ∀ j : Job, ProcOp.exec j ∈ ops → j.result = PyValue.none)
    (hc : ((Procedure.fresh u lo).applyOps ops).is_complete = true) :
    ((Procedure.fresh u lo).applyOps ops).result = PyValue.bool true :=
  applyOps_result_true ops (Procedure.fresh u lo)
    (by simp [Procedure.fresh]) hnull

theorem c9_witness :
    ((Procedure.fresh 1 ["lock"]).applyOps sampleOps).result =
      PyValue.bool true := by
  refine c9_null_results_aggregate 1 ["lock"] sampleOps (by decide) ?_
    (by decide)
  intro j hj
  simp only [sampleOps, List.mem_cons, List.mem_singleton] at hj
  rcases hj with hj | hj | hj
  · cases hj
  · cases hj
    rfl
  · cases hj

theorem waitLoop_eq_some_iff (obs : List Bool) (k : Nat) :
    Procedure.waitLoop obs = some k ↔
      (obs[k]? = some true ∧ ∀ i, i < k → obs[i]? = some false) := by
  induction obs generalizing k with
  | nil => simp [Procedure.waitLoop]
  | cons b rest ih =>
    cases b with
    | true =>
      cases k with
      | zero => simp [Procedure.waitLoop]
      | succ k' =>
        simp only [Procedure.waitLoop, if_pos]
        constructor
        · intro h
          exact absurd h (by simp)
        · rintro ⟨-, hall⟩
          have h0 := hall 0 (Nat.succ_pos _)
          simp at h0
    | false =>
      cases k with
      | zero => simp [Procedure.waitLoop, Option.map_eq_some']
      | succ k' =>
        rw [show Procedure.waitLoop (false :: rest) =
          (Procedure.waitLoop rest).map (· + 1) by simp [Procedure.waitLoop]]
        constructor
        · intro h
          obtain ⟨a, haw, hplus⟩ := Option.map_eq_some'.mp h
          have hak : a = k' := by omega
          rw [hak] at haw
          obtain ⟨h1, h2⟩ := (ih k').mp haw
          refine ⟨by simpa using h1, ?_⟩
          intro i hi
          cases i with
          | zero => simp
          | succ i' =>
            have := h2 i' (by omega)
            simpa using this
        · rintro ⟨h1, h2⟩
          have h1' : rest[k']? = some true := by simpa using h1
          have h2' : ∀ i, i < k' → rest[i]? = some false := by
            intro i hi
            have := h2 (i + 1) (by omega)
            simpa using this
          rw [(ih k').mpr ⟨h1', h2'⟩]
          rfl

theorem waitLoop_eq_none_iff (obs : List Bool) :
    Procedure.waitLoop obs = Option.none ↔ ∀ b ∈ obs, b = false := by
  induction obs with
  | nil => simp [Procedure.waitLoop]
  | cons b rest ih =>
    cases b with
    | true => simp [Procedure.waitLoop]
    | false => simp [Procedure.waitLoop, Option.map_eq_none', ih]

/-- C8: `wait_for_procedure` raises `ProgrammingError` when a current
executor-thread object exists (called from inside a job), without waiting;
otherwise it delegates to `procedure.wait()`, which returns exactly at the
first read observing the completion flag true (re-checking the flag on every
wake-up) and stays blocked while every read observes false. -/
theorem c8_wait_for_procedure_spec :
    (∀ (j : Job) (flagReads : List Bool),
      Executor.wait_for_procedure (some j) flagReads =
        Except.error (Exn.programmingError
          "One cannot wait for the execution of a procedure from a job.")) ∧
    (∀ flagReads : List Bool,
      Executor.wait_for_procedure Option.none flagReads =
        Except.ok (Procedure.waitLoop flagReads)) ∧
    (∀ (flagReads : List Bool) (k : Nat),
      Procedure.waitLoop flagReads = some k ↔
        (flagReads[k]? = some true ∧
          ∀ i, i < k → flagReads[i]? = some false)) ∧
    (∀ flagReads : List Bool,
      Procedure.waitLoop flagReads = Option.none ↔
        ∀ b ∈ flagReads, b = false) :=
  ⟨fun _ _ => rfl, fun _ => rfl, waitLoop_eq_some_iff, waitLoop_eq_none_iff⟩

theorem c8_witness :
    Executor.wait_for_procedure (some sampleJob) [false] =
      Except.error (Exn.programmingError
        "One cannot wait for the execution of a procedure from a job.") ∧
    Procedure.waitLoop [false, true] = some 1 := by
  refine ⟨c8_wait_for_procedure_spec.1 sampleJob [false], ?_⟩
  exact (c8_wait_for_procedure_spec.2.2.1 [false, true] 1).mpr (by decide)

/-- C7: calling `enqueue_procedures` (or `enqueue_procedure`) with a
non-empty actions list, from outside any job, with `within_procedure` true,
on a running executor, raises `ProgrammingError` and neither creates a
procedure nor hands anything to the scheduler (the state is unchanged and no
collaborator call is made). -/
theorem c7_enqueue_within_outside_job (st : ExecutorState) (fresh : Nat)
    (actions : List ActionEntry) (lockable_objects : List String)
    (ha : actions ≠ []) (hr : st.executors ≠ []) :
    Executor.enqueue_procedures st fresh Option.none true actions
        lockable_objects =
      { result := Except.error (Exn.programmingError
          "One can only create a new job from a job."),
        state := st, fresh := fresh, current_job := Option.none,
        events := [] } ∧
    ∀ (a : PyAction) (d : String) (args : List PyValue)
      (kwargs : List (String × PyValue)),
      Executor.enqueue_procedure st fresh Option.none true a d
          lockable_objects args kwargs =
        { result := Except.error (Exn.programmingError
            "One can only create a new job from a job."),
          state := st, fresh := fresh, current_job := Option.none,
          events := [] } := by
  have hlen : ¬actions.length = 0 := by
    simpa [List.length_eq_zero] using ha
  constructor
  · simp [Executor.enqueue_procedures, Executor.do_enqueue_procedures,
      hlen, hr]
  · intro a d args kwargs
    simp [Executor.enqueue_procedure, Executor.enqueue_procedures,
      Executor.do_enqueue_procedures, hr]

theorem c7_witness :
    Executor.enqueue_procedures sampleState 0 Option.none true [sampleEntry]
        [] =
      { result := Except.error (Exn.programmingError
          "One can only create a new job from a job."),
        state := sampleState, fresh := 0, current_job := Option.none,
        events := [] } :=
  (c7_enqueue_within_outside_job sampleState 0 [sampleEntry] []
    (by simp) (by simp [sampleState])).1

/-- C10: `enqueue_procedures` and `reschedule_procedure` called with an
empty actions list return an empty list immediately — before the
running-workers check, so no `ExecutorError` even with no workers — and
change nothing. -/
theorem c10_empty_actions_immediate (st : ExecutorState) (fresh : Nat)
    (ctx : Option Job) (within_procedure : Bool) (proc_uuid : Nat)
    (lockable_objects : List String) :
    Executor.enqueue_procedures st fresh ctx within_procedure []
        lockable_objects =
      { result := Except.ok [], state := st, fresh := fresh,
        current_job := ctx, events := [] } ∧
    Executor.reschedule_procedure st fresh ctx proc_uuid []
        lockable_objects =
      { result := Except.ok [], state := st, fresh := fresh,
        current_job := ctx, events := [] } :=
  ⟨rfl, rfl⟩
